import Mathlib

/-!
Verification of the project-configuration resolver
(`core/dbt/config/project.py`) against its natural-language specification.

The Python module is shallowly embedded below.  Python/YAML data is the
inductive tree `YVal` (scalars, sequences, string-keyed mappings); YAML
floats are represented exactly as rationals, which is faithful for the
equality comparisons the module performs (Python compares `int`/`float`/
`bool` numerically, so `2.0 == 2` and `True == 1`).  Exceptions become
`Except` results.  Functions from this repository's module are translated
from its source; external collaborators that the module calls
(`dbt.semver`, `dbt.utils.deep_map`, `dbt.utils.MultiDict`, the hologram
schema validator behind `ProjectContract.from_dict`) are not part of the
repository snapshot and are modelled from the specification, each marked
`Modelled from the spec:` in its doc comment.
-/

/-- A Python/YAML value: `None`, bool, int, float (exact rational), str,
list, and string-keyed dict (as an association list in insertion order). -/
inductive YVal where
  | null : YVal
  | b : Bool → YVal
  | i : Int → YVal
  | f : Rat → YVal
  | s : String → YVal
  | arr : List YVal → YVal
  | obj : List (String × YVal) → YVal
/-- Lookup in a Python dict modelled as an association list (first match). -/
def ylookup : List (String × YVal) → String → Option YVal
  | [], _ => none
  | (k, v) :: rest, key => if k = key then some v else ylookup rest key

/-- The numeric value of a Python scalar, when it has one: Python `bool` is
a subtype of `int` (`True == 1`), and `int`/`float` compare numerically. -/
def YVal.toNum : YVal → Option Rat
  | .b true => some 1
  | .b false => some 0
  | .i n => some (n : Rat)
  | .f q => some q
  | _ => none

theorem ylookup_sizeOf {d : List (String × YVal)} {k : String} {w : YVal}
    (h : ylookup d k = some w) : sizeOf w < sizeOf d := by
  induction d with
  | nil => simp [ylookup] at h
  | cons kv rest ih =>
    rw [ylookup] at h
    split at h
    · cases h
      cases kv
      simp
      omega
    · have := ih h
      cases kv
      simp
      omega

/-- Python `==` on values: `None` equals only `None`; numbers (ints, floats,
bools) compare numerically; strings by content; lists pointwise; dicts by
key set and per-key value equality, insertion order ignored. -/
def pyEq : YVal → YVal → Bool
  | .null, .null => true
  | .s a, .s c => a = c
  | .arr xs, .arr ys =>
      xs.length = ys.length &&
        (xs.zip ys).attach.all fun p => pyEq p.1.1 p.1.2
  | .obj d1, .obj d2 =>
      d1.length = d2.length &&
        d1.attach.all fun kv =>
          match h : ylookup d2 kv.1.1 with
          | some w => pyEq kv.1.2 w
          | none => false
  | a, c => (YVal.toNum a).isSome && YVal.toNum a = YVal.toNum c
termination_by a c => sizeOf a + sizeOf c
decreasing_by
  · obtain ⟨⟨x, y⟩, hmem⟩ := p
    have h1 := List.of_mem_zip hmem
    have l1 := List.sizeOf_lt_of_mem h1.1
    have l2 := List.sizeOf_lt_of_mem h1.2
    simp only [Prod.mk.sizeOf_spec, YVal.arr.sizeOf_spec] at *
    omega
  · obtain ⟨⟨k1, v1⟩, hmem⟩ := kv
    have h1 := List.sizeOf_lt_of_mem hmem
    have h2 := ylookup_sizeOf h
    simp only [Prod.mk.sizeOf_spec, YVal.obj.sizeOf_spec] at *
    omega

/-! ## Errors

`dbt.exceptions.DbtProjectError` carries a message and an optional path;
an uncaught hologram `ValidationError` is a distinct exception kind. -/

/-- A structured validation failure from the external schema validator
(hologram's `ValidationError`), carrying a human-readable message. -/
structure ValidationError where
  message : String

/-- An error escaping the resolver: either a `DbtProjectError` (message and
optional path to the offending file) or an uncaught hologram
`ValidationError`.  The `project=` keyword of `DbtProjectError` is not
carried: no claim concerns it. -/
inductive DbtError where
  | projectError (msg : String) (path : Option String)
  | validationError (msg : String)

/-- Modelled from the spec: `dbt.exceptions.validator_error_message` turns a
`ValidationError` into a manifest-level message "that includes the original
validator message verbatim"; the inclusion is modelled as identity. -/
def validator_error_message (e : ValidationError) : String :=
  e.message

/-- `dbt.utils.RecursionException`, raised by `deep_map` on self-referential
input. -/
inductive RecursionException where
  | mk

/-! ## Version specifiers (`dbt.semver`, spec-modelled)

`dbt.semver` is not part of the repository snapshot.  Modelled from the
spec: a `VersionRangeSet` is "an ordered sequence of individual range
constraints (each: operator + version triple)"; it "is satisfiable only if
the intersection of all operators' allowed regions is non-empty; a concrete
version is compatible only if it lies in every constraint's region".  The
version order is lexicographic on the triple; the allowed regions are
treated as regions of the full (dense) version order, where prerelease
versions lie strictly between any two distinct triples. -/

/-- A version triple. -/
structure SemVer where
  major : Nat
  minor : Nat
  patch : Nat
deriving Repr, DecidableEq

/-- Strict lexicographic order on version triples. -/
def svLt (a c : SemVer) : Bool :=
  a.major < c.major ||
    (a.major = c.major &&
      (a.minor < c.minor || (a.minor = c.minor && a.patch < c.patch)))

/-- A comparison operator of a version range. -/
inductive Matcher where
  | lt
  | lte
  | eq
  | gte
  | gt
deriving Repr, DecidableEq

/-- One version-range constraint: operator and version triple. -/
structure VersionSpecifier where
  matcher : Matcher
  version : SemVer
deriving Repr, DecidableEq

def SemVer.to_string (v : SemVer) : String :=
  toString v.major ++ "." ++ toString v.minor ++ "." ++ toString v.patch

def Matcher.symbol : Matcher → String
  | .lt => "<"
  | .lte => "<="
  | .eq => "="
  | .gte => ">="
  | .gt => ">"

def VersionSpecifier.to_version_string (sp : VersionSpecifier) : String :=
  sp.matcher.symbol ++ sp.version.to_string

/-- Whether a concrete version lies in one constraint's region. -/
def VersionSpecifier.satisfies (v : SemVer) (sp : VersionSpecifier) : Bool :=
  match sp.matcher with
  | .lt => svLt v sp.version
  | .lte => svLt v sp.version || v = sp.version
  | .eq => v = sp.version
  | .gte => svLt sp.version v || v = sp.version
  | .gt => svLt sp.version v

/-- An interval endpoint: version triple and whether it is included. -/
structure VersionBound where
  ver : SemVer
  closed : Bool
deriving Repr, DecidableEq

/-- The larger (tighter) of two lower endpoints. -/
def maxLower (a c : VersionBound) : VersionBound :=
  if svLt a.ver c.ver then c
  else if svLt c.ver a.ver then a
  else ⟨a.ver, a.closed && c.closed⟩

/-- The smaller (tighter) of two upper endpoints. -/
def minUpper (a c : VersionBound) : VersionBound :=
  if svLt a.ver c.ver then a
  else if svLt c.ver a.ver then c
  else ⟨a.ver, a.closed && c.closed⟩

/-- Fold one constraint into the running (lower, upper) endpoints. -/
def addBound (acc : Option VersionBound × Option VersionBound)
    (sp : VersionSpecifier) : Option VersionBound × Option VersionBound :=
  let addLo := fun (b : VersionBound) =>
    match acc.1 with
    | none => some b
    | some a => some (maxLower a b)
  let addHi := fun (b : VersionBound) =>
    match acc.2 with
    | none => some b
    | some a => some (minUpper a b)
  match sp.matcher with
  | .lt => (acc.1, addHi ⟨sp.version, false⟩)
  | .lte => (acc.1, addHi ⟨sp.version, true⟩)
  | .eq => (addLo ⟨sp.version, true⟩, addHi ⟨sp.version, true⟩)
  | .gte => (addLo ⟨sp.version, true⟩, acc.2)
  | .gt => (addLo ⟨sp.version, false⟩, acc.2)

/-- Modelled from the spec: `is_satisfiable(set)` — "true iff the ranges in
the set do not mutually exclude all versions".  The intersection of the
constraint regions is the interval between the tightest lower and upper
endpoints; it is non-empty iff the lower endpoint lies strictly below the
upper one (the order is dense there), or they coincide and both are
included. -/
def is_satisfiable (specs : List VersionSpecifier) : Bool :=
  let bounds := specs.foldl addBound (none, none)
  match bounds.1, bounds.2 with
  | some lo, some hi =>
      svLt lo.ver hi.ver || (lo.ver = hi.ver && lo.closed && hi.closed)
  | _, _ => true

/-- Modelled from the spec: `is_compatible(installed_version, set)` — "true
iff `installed_version` satisfies every range in the set". -/
def is_compatible (installed : SemVer) (specs : List VersionSpecifier) : Bool :=
  specs.all fun sp => sp.satisfies installed

/-- Python `repr` of a list of strings, as `str.format` renders it into the
version error messages. -/
def pyStrListRepr (xs : List String) : String :=
  "[" ++ String.intercalate ", " (xs.map fun x => "'" ++ x ++ "'") ++ "]"

/-- The `INVALID_VERSION_ERROR` template, with its fields substituted. -/
def INVALID_VERSION_ERROR (package installed version_spec : String) : String :=
  "This version of dbt is not supported with the '" ++ package ++
  "' package.\n  Installed version of dbt: " ++ installed ++
  "\n  Required version of dbt for '" ++ package ++ "': " ++ version_spec ++
  "\nCheck the requirements for the '" ++ package ++
  "' package, or run dbt again with --no-version-check\n"

/-- The `IMPOSSIBLE_VERSION_ERROR` template, with its fields substituted
(the source template indeed leaves the quote after `{package}` unclosed). -/
def IMPOSSIBLE_VERSION_ERROR (package version_spec : String) : String :=
  "The package version requirement can never be satisfied for the '" ++
  package ++ "\npackage.\n  Required versions of dbt for '" ++ package ++
  "': " ++ version_spec ++ "\nCheck the requirements for the '" ++ package ++
  "' package, or run dbt again with --no-version-check\n"

/-- `validate_version` (project.py lines 266-289): ensure this package works
with the installed version of dbt.  The source fetches the installed
version with `get_installed_version()` (external, environment-derived);
here it is a parameter.  `versions_compatible(*required)` is the
satisfiability of the required set alone, and
`versions_compatible(installed, *required)` — the installed version being
an exact pin — is its compatibility with every required range. -/
def validate_version (installed : SemVer) (required : List VersionSpecifier)
    (project_name : String) : Except DbtError Unit :=
  if !is_satisfiable required then
    .error (.projectError
      (IMPOSSIBLE_VERSION_ERROR project_name
        (pyStrListRepr (required.map VersionSpecifier.to_version_string)))
      none)
  else if !is_compatible installed required then
    .error (.projectError
      (INVALID_VERSION_ERROR project_name installed.to_string
        (pyStrListRepr (required.map VersionSpecifier.to_version_string)))
      none)
  else
    .ok ()

/-! ## Structural preprocessing

`Project._preprocess` (project.py lines 331-355) registers keypath handlers
and maps `dbt.utils.deep_map` over the project dict.  `deep_map` is not in
the repository snapshot; it is modelled from the spec (§4.2): a recursive
traversal of the nested structure that tracks "the path of keys/indices
from the root as a tuple", applies the registered transform where the path
matches, and detects self-reference on the active path.  The converter is
applied at scalar leaves; the registered transforms are identity on
sequences and mappings, so this agrees with applying the rule at every
node.  Because the loader may hand the resolver a structure with shared
back-references, the input here is a node store (`GDoc`) in which cycles
are representable; acyclic documents flatten to a `YVal` tree. -/

/-- One element of a keypath: a mapping key or a sequence index. -/
inductive KeyElem where
  | key (k : String)
  | idx (n : Nat)
deriving Repr, DecidableEq

/-- The transforms registered by `_preprocess`, as a tagged variant. -/
inductive Transform where
  | list_if_none_or_string
  | dict_if_none
deriving Repr, DecidableEq

/-- `_list_if_none` (project.py lines 82-85). -/
def _list_if_none (value : YVal) : YVal :=
  match value with
  | .null => .arr []
  | _ => value

/-- `_dict_if_none` (project.py lines 88-91). -/
def _dict_if_none (value : YVal) : YVal :=
  match value with
  | .null => .obj []
  | _ => value

/-- `_list_if_none_or_string` (project.py lines 94-98). -/
def _list_if_none_or_string (value : YVal) : YVal :=
  let value := _list_if_none value
  match value with
  | .s t => .arr [.s t]
  | _ => value

def Transform.apply : Transform → YVal → YVal
  | .list_if_none_or_string, v => _list_if_none_or_string v
  | .dict_if_none, v => _dict_if_none v

/-- The handler table of `_preprocess` (project.py lines 336-346), in the
source's insertion order: the two top-level run-hook paths, then for each
of `models`, `seeds`, `snapshots` the block itself and its `vars`,
`pre-hook` and `post-hook` sub-paths, then `seeds.column_types`. -/
def preprocessHandlers : List (List KeyElem × Transform) :=
  [([.key "on-run-start"], .list_if_none_or_string),
   ([.key "on-run-end"], .list_if_none_or_string)] ++
  ((["models", "seeds", "snapshots"] : List String).flatMap fun k =>
    [([.key k], .dict_if_none),
     ([.key k, .key "vars"], .dict_if_none),
     ([.key k, .key "pre-hook"], .list_if_none_or_string),
     ([.key k, .key "post-hook"], .list_if_none_or_string)]) ++
  [([.key "seeds", .key "column_types"], .dict_if_none)]

/-- The keypaths the handler table registers. -/
def registeredKeypaths : List (List KeyElem) :=
  preprocessHandlers.map Prod.fst

/-- The `converter` closure of `_preprocess` (project.py lines 348-353):
apply the handler registered for the keypath, pass other values through. -/
def converter (value : YVal) (keypath : List KeyElem) : YVal :=
  match preprocessHandlers.find? (fun h => h.1 = keypath) with
  | some h => h.2.apply value
  | none => value

/-- A stored node of a possibly self-referential document: scalars, or a
sequence/mapping of node indices. -/
inductive GNode where
  | null : GNode
  | b : Bool → GNode
  | i : Int → GNode
  | f : Rat → GNode
  | s : String → GNode
  | arr : List Nat → GNode
  | obj : List (String × Nat) → GNode
deriving Repr, DecidableEq

/-- A document as the loader hands it over: a node store and the root's
index.  Back-references (and so cycles) are representable. -/
structure GDoc where
  nodes : List GNode
  root : Nat
deriving Repr, DecidableEq

/-- The scalar payload of a non-container node. -/
def GNode.atom : GNode → YVal
  | .null => .null
  | .b x => .b x
  | .i x => .i x
  | .f x => .f x
  | .s x => .s x
  | .arr _ => .null
  | .obj _ => .null

/-- Traverse a list of element node indices with a visitor, threading the
element position. -/
def exceptMapIdx (g : Nat → Nat → Except RecursionException YVal) :
    List Nat → Nat → Except RecursionException (List YVal)
  | [], _ => .ok []
  | r :: rest, pos => do
    let v ← g r pos
    let vs ← exceptMapIdx g rest (pos + 1)
    .ok (v :: vs)

/-- Traverse a list of mapping entries (key and node index) with a
visitor. -/
def exceptMapKeys (g : Nat → String → Except RecursionException YVal) :
    List (String × Nat) → Except RecursionException (List (String × YVal))
  | [] => .ok []
  | (k, r) :: rest => do
    let v ← g r k
    let vs ← exceptMapKeys g rest
    .ok ((k, v) :: vs)

/-- Modelled from the spec: the recursive visit of `dbt.utils.deep_map`.
`active` is the node identities on the active path: a node revisited while
still on it means self-reference, a `RecursionException`.  `fuel` models
the interpreter's recursion limit, whose exhaustion `deep_map` also
reports as a `RecursionException`; with the initial fuel of `deep_map` it
can run out only through a revisit, since the active path never repeats a
node.  The converter is applied at scalar leaves with the keypath from the
root; sequence elements extend the keypath with their index, mapping
entries with their key. -/
def deepMapVisit (nodes : List GNode) (fconv : YVal → List KeyElem → YVal) :
    Nat → Nat → List KeyElem → List Nat → Except RecursionException YVal
  | 0, _, _, _ => .error .mk
  | fuel + 1, ref, keypath, active =>
    if ref ∈ active then .error .mk
    else
      match nodes.get? ref with
      | none => .error .mk
      | some (.arr elems) =>
          (exceptMapIdx
            (fun r pos =>
              deepMapVisit nodes fconv fuel r (keypath ++ [.idx pos])
                (ref :: active))
            elems 0).map .arr
      | some (.obj entries) =>
          (exceptMapKeys
            (fun r k =>
              deepMapVisit nodes fconv fuel r (keypath ++ [.key k])
                (ref :: active))
            entries).map .obj
      | some atom => .ok (fconv atom.atom keypath)

/-- Modelled from the spec: `dbt.utils.deep_map(func, value)` — traverse
from the root with an empty keypath and no active path. -/
def deep_map (fconv : YVal → List KeyElem → YVal) (doc : GDoc) :
    Except RecursionException YVal :=
  deepMapVisit doc.nodes fconv (doc.nodes.length + 1) doc.root [] []

/-! ## Python value rendering

`str()`/`repr()` of values, as f-strings and `str.format` render them into
error messages.  Floats print with Python's shortest-repr only
approximated (exact for the small literals that occur here). -/

mutual

/-- Python `repr` of a value. -/
def yvalRepr : YVal → String
  | .null => "None"
  | .b true => "True"
  | .b false => "False"
  | .i n => toString n
  | .f q => if q.den = 1 then toString q.num ++ ".0" else toString q
  | .s t => "'" ++ t ++ "'"
  | .arr xs => "[" ++ String.intercalate ", " (yvalReprSeq xs) ++ "]"
  | .obj kvs => "\x7b" ++ String.intercalate ", " (yvalReprMap kvs) ++ "\x7d"

def yvalReprSeq : List YVal → List String
  | [] => []
  | x :: rest => yvalRepr x :: yvalReprSeq rest

def yvalReprMap : List (String × YVal) → List String
  | [] => []
  | (k, v) :: rest => ("'" ++ k ++ "': " ++ yvalRepr v) :: yvalReprMap rest

end

/-- Python `str()` of a value: the raw text for a string, `repr` otherwise. -/
def yvalStr : YVal → String
  | .s t => t
  | v => yvalRepr v

/-- Python `dict.get(k)`: the stored value, or `None` when the key is
absent. -/
def yget (d : List (String × YVal)) (k : String) : YVal :=
  (ylookup d k).getD .null

/-- Python `dict.get(k, default)`. -/
def ygetD (d : List (String × YVal)) (k : String) (dflt : YVal) : YVal :=
  (ylookup d k).getD dflt

/-! ## The validated project contract

`ProjectContract.from_dict` is hologram schema validation of
`dbt.contracts.project.Project`, external to the repository snapshot.
Modelled from the spec: the validator "converts a nested mapping into a
checked object or raises a structured validation failure"; `name` and
`version` are required (the source comments on it at lines 392-393), every
path field is an optional list of strings or an optional string, the
per-resource-type blocks and `vars`/`quoting` are optional mappings, and
`config-version` is an optional integer defaulting to 1.  Unknown keys
pass through unvalidated. -/

/-- The project version: a semver string or a number. -/
inductive PVersion where
  | str (t : String)
  | flt (q : Rat)
deriving Repr

/-- `dbt.contracts.connection.QueryComment` (external): `none` is the
"use the adapter default" sentinel of the bare `QueryComment()`
constructed for a `NoValue`. -/
structure QueryComment where
  comment : Option String
deriving Repr

def QueryComment.to_dict (q : QueryComment) : YVal :=
  match q.comment with
  | some c => .obj [("comment", .s c)]
  | none => .obj []

/-- The `query-comment` union of the contract:
`Union[QueryComment, NoValue, str, None]`. -/
inductive QCCfg where
  | noValue
  | null
  | str (t : String)
  | obj (q : QueryComment)
deriving Repr

/-- An optional string-valued field. -/
def expectOptStr (fieldName : String) :
    Option YVal → Except ValidationError (Option String)
  | none => .ok none
  | some .null => .ok none
  | some (.s t) => .ok (some t)
  | some _ => .error ⟨fieldName ++ " is not a string"⟩

/-- The strings of a list value, when every element is a string. -/
def strList? : List YVal → Option (List String)
  | [] => some []
  | .s t :: rest => (strList? rest).map (t :: ·)
  | _ => none

/-- An optional list-of-strings field. -/
def expectOptStrList (fieldName : String) :
    Option YVal → Except ValidationError (Option (List String))
  | none => .ok none
  | some .null => .ok none
  | some (.arr xs) =>
      match strList? xs with
      | some ts => .ok (some ts)
      | none => .error ⟨fieldName ++ " is not a list of strings"⟩
  | some _ => .error ⟨fieldName ++ " is not a list of strings"⟩

/-- An optional mapping-valued field. -/
def expectOptObj (fieldName : String) :
    Option YVal → Except ValidationError (Option (List (String × YVal)))
  | none => .ok none
  | some .null => .ok none
  | some (.obj kvs) => .ok (some kvs)
  | some _ => .error ⟨fieldName ++ " is not a mapping"⟩

/-- The checked object the schema validator returns for a project dict
(`dbt.contracts.project.Project`, imported by the source as
`ProjectContract`). -/
structure ProjectContract where
  name : String
  version : PVersion
  project_root : Option String
  profile : Option String
  source_paths : Option (List String)
  macro_paths : Option (List String)
  data_paths : Option (List String)
  test_paths : Option (List String)
  analysis_paths : Option (List String)
  docs_paths : Option (List String)
  asset_paths : Option (List String)
  target_path : Option String
  snapshot_paths : Option (List String)
  clean_targets : Option (List String)
  log_path : Option String
  modules_path : Option String
  quoting : Option (List (String × YVal))
  models : Option (List (String × YVal))
  on_run_start : Option (List String)
  on_run_end : Option (List String)
  seeds : Option (List (String × YVal))
  snapshots : Option (List (String × YVal))
  sources : Option (List (String × YVal))
  vars : Option (List (String × YVal))
  config_version : Int
  query_comment : QCCfg

/-- Modelled from the spec: the external schema validator over the project
contract. -/
def ProjectContract.from_dict (v : YVal) : Except ValidationError ProjectContract := do
  let d ← match v with
    | .obj kvs => Except.ok kvs
    | _ => Except.error ⟨"project configuration is not a mapping"⟩
  let name ← match ylookup d "name" with
    | some (.s t) => Except.ok t
    | some _ => Except.error ⟨"name is not a string"⟩
    | none => Except.error ⟨"name is a required property"⟩
  let version ← match ylookup d "version" with
    | some (.s t) => Except.ok (PVersion.str t)
    | some (.f q) => Except.ok (PVersion.flt q)
    | some (.i n) => Except.ok (PVersion.flt (n : Rat))
    | some _ => Except.error ⟨"version is not a semver string or number"⟩
    | none => Except.error ⟨"version is a required property"⟩
  let project_root ← expectOptStr "project-root" (ylookup d "project-root")
  let profile ← expectOptStr "profile" (ylookup d "profile")
  let source_paths ← expectOptStrList "source-paths" (ylookup d "source-paths")
  let macro_paths ← expectOptStrList "macro-paths" (ylookup d "macro-paths")
  let data_paths ← expectOptStrList "data-paths" (ylookup d "data-paths")
  let test_paths ← expectOptStrList "test-paths" (ylookup d "test-paths")
  let analysis_paths ← expectOptStrList "analysis-paths" (ylookup d "analysis-paths")
  let docs_paths ← expectOptStrList "docs-paths" (ylookup d "docs-paths")
  let asset_paths ← expectOptStrList "asset-paths" (ylookup d "asset-paths")
  let target_path ← expectOptStr "target-path" (ylookup d "target-path")
  let snapshot_paths ← expectOptStrList "snapshot-paths" (ylookup d "snapshot-paths")
  let clean_targets ← expectOptStrList "clean-targets" (ylookup d "clean-targets")
  let log_path ← expectOptStr "log-path" (ylookup d "log-path")
  let modules_path ← expectOptStr "modules-path" (ylookup d "modules-path")
  let quoting ← expectOptObj "quoting" (ylookup d "quoting")
  let models ← expectOptObj "models" (ylookup d "models")
  let on_run_start ← expectOptStrList "on-run-start" (ylookup d "on-run-start")
  let on_run_end ← expectOptStrList "on-run-end" (ylookup d "on-run-end")
  let seeds ← expectOptObj "seeds" (ylookup d "seeds")
  let snapshots ← expectOptObj "snapshots" (ylookup d "snapshots")
  let sources ← expectOptObj "sources" (ylookup d "sources")
  let vars ← expectOptObj "vars" (ylookup d "vars")
  let _ ← match ylookup d "require-dbt-version" with
    | none => Except.ok ()
    | some (.s _) => Except.ok ()
    | some (.arr xs) =>
        if (strList? xs).isSome then Except.ok ()
        else Except.error ⟨"require-dbt-version is not a version specification"⟩
    | some _ => Except.error ⟨"require-dbt-version is not a version specification"⟩
  let config_version ← match ylookup d "config-version" with
    | none => Except.ok (1 : Int)
    | some (.i n) => Except.ok n
    | some _ => Except.error ⟨"config-version is not an integer"⟩
  let query_comment ← match ylookup d "query-comment" with
    | none => Except.ok QCCfg.noValue
    | some .null => Except.ok QCCfg.null
    | some (.s t) => Except.ok (QCCfg.str t)
    | some (.obj kvs) =>
        match ylookup kvs "comment" with
        | some (.s c) => Except.ok (QCCfg.obj ⟨some c⟩)
        | none => Except.ok (QCCfg.obj ⟨none⟩)
        | some _ => Except.error ⟨"query-comment comment is not a string"⟩
    | some _ => Except.error ⟨"query-comment is invalid"⟩
  Except.ok {
    name, version, project_root, profile, source_paths, macro_paths,
    data_paths, test_paths, analysis_paths, docs_paths, asset_paths,
    target_path, snapshot_paths, clean_targets, log_path, modules_path,
    quoting, models, on_run_start, on_run_end, seeds, snapshots, sources,
    vars, config_version, query_comment
  }

/-! ## Variable provider and auxiliary collections -/

/-- The `IsFQNResource` protocol (project.py lines 75-79): an entity with a
fully-qualified name, a resource type and an owning package. -/
structure IsFQNResource where
  fqn : List String
  resource_type : String
  package_name : String

/-- Modelled from the spec: `dbt.utils.MultiDict` — an overlay of mappings
in which mappings added later take precedence on lookup. -/
structure MultiDict where
  sources : List (List (String × YVal))

/-- `MultiDict.add`: overlay one more mapping, taking precedence over the
ones already present. -/
def MultiDict.add (md : MultiDict) (d : List (String × YVal)) : MultiDict :=
  ⟨md.sources ++ [d]⟩

/-- Lookup through the overlay: the value from the latest-added mapping
holding the key. -/
def MultiDict.lookup (md : MultiDict) (k : String) : Option YVal :=
  md.sources.foldl
    (fun acc d =>
      match ylookup d k with
      | some v => some v
      | none => acc)
    none

/-- `VarProvider` (project.py lines 246-263): tied to a particular Project. -/
structure VarProvider where
  vars : List (String × YVal)

def VarProvider.to_dict (self : VarProvider) : List (String × YVal) :=
  self.vars

/-- `VarProvider.vars_for` (project.py lines 254-260): in v2, vars are only
either project or globally scoped.  Overlays the whole vars mapping with
the bucket stored under the requesting node's package name
(`self.vars.get(node.package_name, \x7b\x7d)`, the empty mapping when the
key is absent or holds a non-mapping). -/
def VarProvider.vars_for (self : VarProvider) (node : IsFQNResource)
    (adapter_type : String) : MultiDict :=
  let merged := MultiDict.mk [self.vars]
  let pkgBucket :=
    match ylookup self.vars node.package_name with
    | some (.obj kvs) => kvs
    | _ => []
  merged.add pkgBucket

/-- `PackageConfig` (`dbt.contracts.project`, external): the checked
package collection. -/
structure PackageConfig where
  packages : List YVal

/-- Modelled from the spec: hologram validation of the packages file — a
mapping with a `packages` list, "or fail with a structured error". -/
def PackageConfig.from_dict (v : YVal) : Except ValidationError PackageConfig :=
  match v with
  | .obj kvs =>
      match ylookup kvs "packages" with
      | some (.arr xs) => .ok ⟨xs⟩
      | _ => .error ⟨"packages is a required property"⟩
  | _ => .error ⟨"packages data is not a mapping"⟩

def PackageConfig.to_dict (p : PackageConfig) : List (String × YVal) :=
  [("packages", .arr p.packages)]

/-- The `MALFORMED_PACKAGE_ERROR` template (project.py lines 63-72), with
its field substituted. -/
def MALFORMED_PACKAGE_ERROR (error : String) : String :=
  "The packages.yml file in this project is malformed. Please double check\n" ++
  "the contents of this file and fix any errors before retrying.\n\n" ++
  "You can find more information on the syntax for this file here:\n" ++
  "https://docs.getdbt.com/docs/package-management\n\nValidator Error:\n" ++
  error ++ "\n"

/-- `package_config_from_data` (project.py lines 118-128): absent packages
data is valid and means no packages; a validation failure becomes a
`DbtProjectError` with the malformed-package template. -/
def package_config_from_data (packages_data : Option YVal) :
    Except DbtError PackageConfig :=
  let pd := match packages_data with
    | none => YVal.obj [("packages", .arr [])]
    | some v => v
  match PackageConfig.from_dict pd with
  | .error e => .error (.projectError (MALFORMED_PACKAGE_ERROR e.message) none)
  | .ok p => .ok p

/-- `SelectorConfig` (`dbt.config.selectors`, external): the checked named
selectors. -/
structure SelectorConfig where
  selectors : List (String × YVal)

/-- Modelled from the spec: `selector_config_from_data` — an absent
selector file is valid and means no selectors; invalid data fails with a
structured validation error. -/
def selector_config_from_data (selectors_dict : Option YVal) :
    Except ValidationError SelectorConfig :=
  match selectors_dict with
  | none => .ok ⟨[]⟩
  | some (.obj kvs) => .ok ⟨kvs⟩
  | some _ => .error ⟨"selectors data is not a mapping"⟩

/-- `_query_comment_from_cfg` (project.py lines 189-201).  Python falsiness
(`if not cfg_query_comment`) holds for `None` and the empty string; a
`NoValue` or `QueryComment` instance is truthy. -/
def _query_comment_from_cfg (cfg_query_comment : QCCfg) : QueryComment :=
  match cfg_query_comment with
  | .null => ⟨some ""⟩
  | .str t => if t = "" then ⟨some ""⟩ else ⟨some t⟩
  | .noValue => ⟨none⟩
  | .obj q => q

/-! ## The Project -/

/-- `value_or` (project.py lines 160-164). -/
def value_or {α : Type} (value : Option α) (dflt : α) : α :=
  match value with
  | none => dflt
  | some v => v

/-- `_all_source_paths` (project.py lines 146-154). -/
def _all_source_paths (source_paths data_paths snapshot_paths analysis_paths
    macro_paths : List String) : List String :=
  source_paths ++ data_paths ++ snapshot_paths ++ analysis_paths ++ macro_paths

/-- The `Project` dataclass (project.py lines 292-322), fields in source
order. -/
structure Project where
  project_name : String
  version : PVersion
  project_root : String
  profile_name : Option String
  source_paths : List String
  macro_paths : List String
  data_paths : List String
  test_paths : List String
  analysis_paths : List String
  docs_paths : List String
  asset_paths : List String
  target_path : String
  snapshot_paths : List String
  clean_targets : List String
  log_path : String
  modules_path : String
  quoting : List (String × YVal)
  models : Option (List (String × YVal))
  on_run_start : List String
  on_run_end : List String
  seeds : Option (List (String × YVal))
  snapshots : Option (List (String × YVal))
  sources : Option (List (String × YVal))
  vars : VarProvider
  dbt_version : List VersionSpecifier
  packages : PackageConfig
  selectors : SelectorConfig
  query_comment : QueryComment
  config_version : Int

def Project.all_source_paths (self : Project) : List String :=
  _all_source_paths self.source_paths self.data_paths self.snapshot_paths
    self.analysis_paths self.macro_paths

/-- Serialization of an optional string: Python `None` or the string. -/
def optStrY : Option String → YVal
  | none => .null
  | some t => .s t

/-- Serialization of a list of strings. -/
def strListY (xs : List String) : YVal :=
  .arr (xs.map .s)

/-- Serialization of an optional mapping: Python `None` or the mapping. -/
def optObjY : Option (List (String × YVal)) → YVal
  | none => .null
  | some kvs => .obj kvs

def PVersion.toY : PVersion → YVal
  | .str t => .s t
  | .flt q => .f q

/-- Python `dict.update`: values of existing keys are replaced in place,
new keys are appended in order. -/
def yobjUpdate (base extra : List (String × YVal)) : List (String × YVal) :=
  (base.map fun kv =>
    match ylookup extra kv.1 with
    | some w => (kv.1, w)
    | none => kv) ++
  extra.filter fun kv => (ylookup base kv.1).isNone

/-- `Project.to_project_config` (project.py lines 513-556): the dict
representation that could be written to disk to get this configuration.
`deepcopy` of a pure value is the value itself.  The `if
self.query_comment:` guard always holds — `query_comment` is a dataclass
instance, and Python dataclass instances are truthy — so the key is always
added.  With `with_packages`, the serialized packages file is merged into
the root via `dict.update`. -/
def Project.to_project_config (self : Project) (with_packages : Bool) : YVal :=
  let result : List (String × YVal) :=
    [("name", .s self.project_name),
     ("version", self.version.toY),
     ("project-root", .s self.project_root),
     ("profile", optStrY self.profile_name),
     ("source-paths", strListY self.source_paths),
     ("macro-paths", strListY self.macro_paths),
     ("data-paths", strListY self.data_paths),
     ("test-paths", strListY self.test_paths),
     ("analysis-paths", strListY self.analysis_paths),
     ("docs-paths", strListY self.docs_paths),
     ("asset-paths", strListY self.asset_paths),
     ("target-path", .s self.target_path),
     ("snapshot-paths", strListY self.snapshot_paths),
     ("clean-targets", strListY self.clean_targets),
     ("log-path", .s self.log_path),
     ("quoting", .obj self.quoting),
     ("models", optObjY self.models),
     ("on-run-start", strListY self.on_run_start),
     ("on-run-end", strListY self.on_run_end),
     ("seeds", optObjY self.seeds),
     ("snapshots", optObjY self.snapshots),
     ("sources", optObjY self.sources),
     ("vars", .obj self.vars.to_dict),
     ("require-dbt-version",
       .arr (self.dbt_version.map fun v => .s v.to_version_string)),
     ("config-version", .i self.config_version)]
  let result := result ++ [("query-comment", self.query_comment.to_dict)]
  let result :=
    if with_packages then yobjUpdate result self.packages.to_dict else result
  .obj result

/-- The wrap at the schema-validation site of `from_project_config`
(project.py lines 389-390): `DbtProjectError(validator_error_message(e))`. -/
def schemaValidationWrap (e : ValidationError) : DbtError :=
  .projectError (validator_error_message e) none

/-- The wrap at the self-check site, `Project.validate` (project.py lines
561-562): `DbtProjectError(validator_error_message(e))`. -/
def selfCheckWrap (e : ValidationError) : DbtError :=
  .projectError (validator_error_message e) none

/-- `Project.validate` (project.py lines 558-562): re-run the serialized
canonical form through the external schema validator. -/
def Project.validate (self : Project) : Except DbtError Unit :=
  match ProjectContract.from_dict (self.to_project_config false) with
  | .error e => .error (selfCheckWrap e)
  | .ok _ => .ok ()

/-- `Project.__eq__` (project.py lines 506-511): both values are Projects
here by type; equality is Python `==` of the canonical forms with
packages included. -/
def Project.projectEq (self other : Project) : Bool :=
  pyEq (self.to_project_config true) (other.to_project_config true)

/-- `Project._preprocess` (project.py lines 331-355): pre-process certain
special keys, mapping the registered converter over the project dict with
`deep_map`. -/
def Project._preprocess (project_dict : GDoc) : Except RecursionException YVal :=
  deep_map converter project_dict

/-- The tail of `Project.from_project_config` after schema validation
(project.py lines 392-500): extract the validated fields, apply the
defaulting table, reject a config version other than 2 with a bare
`ValidationError`, parse packages and selectors, assemble the `Project`
and run the round-trip sanity check before returning it. -/
def Project.from_contract (cfg : ProjectContract)
    (dbt_version : List VersionSpecifier) (packages_dict : Option YVal)
    (selectors_dict : Option YVal) : Except DbtError Project :=
  match cfg.project_root with
  | none => .error (.projectError "cfg must have a project root!" none)
  | some project_root =>
    let source_paths := value_or cfg.source_paths ["models"]
    let macro_paths := value_or cfg.macro_paths ["macros"]
    let data_paths := value_or cfg.data_paths ["data"]
    let test_paths := value_or cfg.test_paths ["test"]
    let analysis_paths := value_or cfg.analysis_paths []
    let snapshot_paths := value_or cfg.snapshot_paths ["snapshots"]
    let all_source_paths := _all_source_paths source_paths data_paths
      snapshot_paths analysis_paths macro_paths
    let docs_paths := value_or cfg.docs_paths all_source_paths
    let asset_paths := value_or cfg.asset_paths []
    let target_path := value_or cfg.target_path "target"
    let clean_targets := value_or cfg.clean_targets [target_path]
    let log_path := value_or cfg.log_path "logs"
    let modules_path := value_or cfg.modules_path "dbt_modules"
    let quoting := value_or cfg.quoting []
    if cfg.config_version ≠ 2 then
      .error (.validationError
        ("Got unsupported config_version=" ++ toString cfg.config_version))
    else
      let vars_dict := value_or cfg.vars []
      let vars_value : VarProvider := ⟨vars_dict⟩
      let on_run_start := value_or cfg.on_run_start []
      let on_run_end := value_or cfg.on_run_end []
      let query_comment := _query_comment_from_cfg cfg.query_comment
      match package_config_from_data packages_dict with
      | .error e => .error e
      | .ok packages =>
        match selector_config_from_data selectors_dict with
        | .error e => .error (schemaValidationWrap e)
        | .ok selectors =>
          let project : Project :=
            { project_name := cfg.name
              version := cfg.version
              project_root := project_root
              profile_name := cfg.profile
              source_paths := source_paths
              macro_paths := macro_paths
              data_paths := data_paths
              test_paths := test_paths
              analysis_paths := analysis_paths
              docs_paths := docs_paths
              asset_paths := asset_paths
              target_path := target_path
              snapshot_paths := snapshot_paths
              clean_targets := clean_targets
              log_path := log_path
              modules_path := modules_path
              quoting := quoting
              models := cfg.models
              on_run_start := on_run_start
              on_run_end := on_run_end
              seeds := cfg.seeds
              snapshots := cfg.snapshots
              sources := cfg.sources
              vars := vars_value
              dbt_version := dbt_version
              packages := packages
              selectors := selectors
              query_comment := query_comment
              config_version := cfg.config_version }
          match project.validate with
          | .error e => .error e
          | .ok _ => .ok project

/-- `Project.from_project_config` (project.py lines 357-500): preprocess
the rendered project dict (wrapping a detected cycle as the dedicated
"Cycle detected" project error), validate it against the schema contract
(wrapping the validation failure), then assemble.  The required dbt
version is the explicitly passed one (when the caller passes `None` the
source derives it from the dict via the external version parser; every
claim concerns the explicit case). -/
def Project.from_project_config (project_dict : GDoc)
    (packages_dict : Option YVal) (selectors_dict : Option YVal)
    (required_dbt_version : List VersionSpecifier) : Except DbtError Project :=
  match Project._preprocess project_dict with
  | .error _ =>
      .error (.projectError
        "Cycle detected: Project input has a reference to itself" none)
  | .ok rendered =>
    match ProjectContract.from_dict rendered with
    | .error e => .error (schemaValidationWrap e)
    | .ok cfg =>
        Project.from_contract cfg required_dbt_version packages_dict
          selectors_dict

/-! ## Partial loading -/

/-- The `PartialProject` dataclass (project.py lines 204-226), fields in
source order.  The name, profile and config-version fields hold whatever
`dict.get` returned (Python `None` for an absent key). -/
structure PartialProject where
  config_version : YVal
  profile_name : YVal
  project_name : YVal
  project_root : String
  project_dict : YVal
  verify_version : Bool

/-- `os.path.join(root, 'dbt_project.yml')`.  Path normalization
(`os.path.normpath`) is environment detail, modelled as identity on the
already-normalized roots used here. -/
def projectYamlPath (project_root : String) : String :=
  project_root ++ "/dbt_project.yml"

/-- `_raw_project_from` (project.py lines 167-186): the raw project dict,
given what the filesystem and YAML reader (external) produced at the
conventional path — `none` when no file exists there, or the parsed
value. -/
def _raw_project_from (project_root : String) (read_result : Option YVal) :
    Except DbtError YVal :=
  match read_result with
  | none =>
      .error (.projectError
        ("no dbt_project.yml found at expected path " ++
          projectYamlPath project_root) none)
  | some project_dict =>
    match project_dict with
    | .obj _ => .ok project_dict
    | _ =>
        .error (.projectError
          "dbt_project.yml does not parse to a dictionary" none)

/-- `Project.partial_load` (project.py lines 622-645): read the raw
project dict, extract `name`, `profile` and `config-version` (the latter
defaulting to 1), reject any config version that is not `== 2` with a
`DbtProjectError` naming it, and hand back the `PartialProject`.  No
rendering is involved: the raw dict is passed through untouched.  The
comparison is Python `!=`, i.e. the negation of `pyEq`. -/
def Project.partial_load (project_root : String) (read_result : Option YVal)
    (verify_version : Bool) : Except DbtError PartialProject :=
  match _raw_project_from project_root read_result with
  | .error e => .error e
  | .ok project_dict =>
    let d := match project_dict with
      | .obj kvs => kvs
      | _ => []
    let project_name := yget d "name"
    let profile_name := yget d "profile"
    let config_version := ygetD d "config-version" (.i 1)
    if !pyEq config_version (.i 2) then
      .error (.projectError
        ("Invalid config version: " ++ yvalStr config_version ++
          ", expected 2")
        (some (projectYamlPath project_root)))
    else
      .ok { config_version := config_version
            profile_name := profile_name
            project_name := project_name
            project_root := project_root
            project_dict := project_dict
            verify_version := verify_version }

/-! ## Claims -/

/-- C1: `validate_version` performs a two-stage check on the required
version-specifier list: for every non-empty list of parsed version
specifiers, if the specifiers are mutually unsatisfiable it raises the
"impossible version" error (naming the project and the constraint strings)
without consulting the installed version — the result is the same whatever
version is installed; otherwise, if the installed version fails any
specifier, it raises the distinct "incompatible installed version" error
naming both the installed version and the required spec list; if the
installed version satisfies all specifiers, it returns without error. -/
theorem validate_version_two_stage (installed : SemVer)
    (required : List VersionSpecifier) (project_name : String)
    (hne : required ≠ []) :
    (is_satisfiable required = false →
      (∀ other : SemVer,
        validate_version other required project_name =
          validate_version installed required project_name) ∧
      validate_version installed required project_name =
        .error (.projectError
          (IMPOSSIBLE_VERSION_ERROR project_name
            (pyStrListRepr (required.map VersionSpecifier.to_version_string)))
          none)) ∧
    (is_satisfiable required = true →
      is_compatible installed required = false →
      validate_version installed required project_name =
        .error (.projectError
          (INVALID_VERSION_ERROR project_name installed.to_string
            (pyStrListRepr (required.map VersionSpecifier.to_version_string)))
          none)) ∧
    (is_satisfiable required = true →
      is_compatible installed required = true →
      validate_version installed required project_name = .ok ()) := by
  refine ⟨fun h1 => ⟨fun other => ?_, ?_⟩, fun h1 h2 => ?_, fun h1 h2 => ?_⟩ <;>
    simp [validate_version, h1]
  · simp [h2]
  · simp [h2]

/-- Witness for C1 at the spec's truth table: `[">2.0.0", "<1.0.0"]` is
unsatisfiable whatever is installed; `[">=1.0.0"]` with installed `0.9.0`
is incompatible; with installed `1.5.0` the check passes. -/
theorem validate_version_two_stage_witness :
    ([⟨.gt, ⟨2, 0, 0⟩⟩, ⟨.lt, ⟨1, 0, 0⟩⟩] : List VersionSpecifier) ≠ [] ∧
    is_satisfiable [⟨.gt, ⟨2, 0, 0⟩⟩, ⟨.lt, ⟨1, 0, 0⟩⟩] = false ∧
    validate_version ⟨9, 9, 9⟩ [⟨.gt, ⟨2, 0, 0⟩⟩, ⟨.lt, ⟨1, 0, 0⟩⟩] "pkg" =
      validate_version ⟨0, 9, 0⟩ [⟨.gt, ⟨2, 0, 0⟩⟩, ⟨.lt, ⟨1, 0, 0⟩⟩] "pkg" ∧
    validate_version ⟨0, 9, 0⟩ [⟨.gt, ⟨2, 0, 0⟩⟩, ⟨.lt, ⟨1, 0, 0⟩⟩] "pkg" =
      .error (.projectError
        (IMPOSSIBLE_VERSION_ERROR "pkg" "['>2.0.0', '<1.0.0']") none) ∧
    is_satisfiable [⟨.gte, ⟨1, 0, 0⟩⟩] = true ∧
    is_compatible ⟨0, 9, 0⟩ [⟨.gte, ⟨1, 0, 0⟩⟩] = false ∧
    validate_version ⟨0, 9, 0⟩ [⟨.gte, ⟨1, 0, 0⟩⟩] "pkg" =
      .error (.projectError
        (INVALID_VERSION_ERROR "pkg" "0.9.0" "['>=1.0.0']") none) ∧
    is_compatible ⟨1, 5, 0⟩ [⟨.gte, ⟨1, 0, 0⟩⟩] = true ∧
    validate_version ⟨1, 5, 0⟩ [⟨.gte, ⟨1, 0, 0⟩⟩] "pkg" = .ok () := by
  have himp := validate_version_two_stage ⟨0, 9, 0⟩
    [⟨.gt, ⟨2, 0, 0⟩⟩, ⟨.lt, ⟨1, 0, 0⟩⟩] "pkg" (by decide)
  have hinc := validate_version_two_stage ⟨0, 9, 0⟩
    [⟨.gte, ⟨1, 0, 0⟩⟩] "pkg" (by decide)
  have hok := validate_version_two_stage ⟨1, 5, 0⟩
    [⟨.gte, ⟨1, 0, 0⟩⟩] "pkg" (by decide)
  refine ⟨by decide, by decide, (himp.1 (by decide)).1 ⟨9, 9, 9⟩, ?_, by decide,
    by decide, ?_, by decide, hok.2.2 (by decide) (by decide)⟩
  · have := (himp.1 (by decide)).2
    simpa using this
  · have := hinc.2.1 (by decide) (by decide)
    simpa using this

/-- C2 counterexample: `partial_load` does not raise for every value other
than exactly the integer 2.  The comparison is Python `!=`, which is
numeric across `int`/`float`: the YAML float `2.0` is a value other than
the integer 2, yet partial loading succeeds and carries it through. -/
theorem partial_load_accepts_float_two :
    Project.partial_load "/proj" (some (.obj [("config-version", .f 2)]))
        false =
      .ok { config_version := .f 2
            profile_name := .null
            project_name := .null
            project_root := "/proj"
            project_dict := .obj [("config-version", .f 2)]
            verify_version := false } ∧
    YVal.f 2 ≠ YVal.i 2 := by
  constructor
  · simp [Project.partial_load, _raw_project_from, yget, ygetD, ylookup,
      pyEq, YVal.toNum]
  · intro h
    cases h

/-- C2 (as amended): `partial_load` reads the `config-version` key from
the raw project dict, defaulting it to 1 when the key is absent, and for
every value that is not Python-`==` equal to the integer 2 (so a float
numerically equal to 2 also passes the gate) it raises a project error
naming the invalid version, before any rendering is attempted — the check
is a pure function of the raw dict; when the value equals 2 it returns a
PartialProject carrying that config-version value, the raw dict, and the
(possibly absent) name and profile. -/
theorem partial_load_config_version_gate (project_root : String)
    (d : List (String × YVal)) (verify_version : Bool) :
    (pyEq (ygetD d "config-version" (.i 1)) (.i 2) = false →
      Project.partial_load project_root (some (.obj d)) verify_version =
        .error (.projectError
          ("Invalid config version: " ++
            yvalStr (ygetD d "config-version" (.i 1)) ++ ", expected 2")
          (some (projectYamlPath project_root)))) ∧
    (pyEq (ygetD d "config-version" (.i 1)) (.i 2) = true →
      Project.partial_load project_root (some (.obj d)) verify_version =
        .ok { config_version := ygetD d "config-version" (.i 1)
              profile_name := yget d "profile"
              project_name := yget d "name"
              project_root := project_root
              project_dict := .obj d
              verify_version := verify_version }) := by
  constructor <;> intro h <;>
    simp [Project.partial_load, _raw_project_from, h]

/-- Witness for C2: `config-version: 1` is rejected with the project error
naming it, `config-version: 2` loads and carries name and profile. -/
theorem partial_load_config_version_gate_witness :
    pyEq (ygetD [("config-version", .i 1)] "config-version" (.i 1))
        (.i 2) = false ∧
    Project.partial_load "/proj" (some (.obj [("config-version", .i 1)]))
        false =
      .error (.projectError "Invalid config version: 1, expected 2"
        (some "/proj/dbt_project.yml")) ∧
    pyEq (ygetD [("name", .s "p"), ("config-version", .i 2)]
        "config-version" (.i 1)) (.i 2) = true ∧
    Project.partial_load "/proj"
        (some (.obj [("name", .s "p"), ("config-version", .i 2)])) false =
      .ok { config_version := .i 2
            profile_name := .null
            project_name := .s "p"
            project_root := "/proj"
            project_dict := .obj [("name", .s "p"), ("config-version", .i 2)]
            verify_version := false } := by
  have h1 := partial_load_config_version_gate "/proj"
    [("config-version", .i 1)] false
  have h2 := partial_load_config_version_gate "/proj"
    [("name", .s "p"), ("config-version", .i 2)] false
  have e1 : pyEq (ygetD [("config-version", .i 1)] "config-version" (.i 1))
      (.i 2) = false := by
    simp [ygetD, ylookup, pyEq, YVal.toNum]
  have e2 : pyEq (ygetD [("name", .s "p"), ("config-version", .i 2)]
      "config-version" (.i 1)) (.i 2) = true := by
    simp [ygetD, ylookup, pyEq, YVal.toNum]
  refine ⟨e1, ?_, e2, ?_⟩
  · have := h1.1 e1
    simpa [ygetD, ylookup, yvalStr, yvalRepr, projectYamlPath] using this
  · have := h2.2 e2
    simpa [ygetD, ylookup, yget, projectYamlPath] using this

/-- C3: for every validated project config in which an optional field is
absent (None), the assembly stage of `from_project_config` fills in
exactly the literal defaults: source-paths `["models"]`, macro-paths
`["macros"]`, data-paths `["data"]`, test-paths `["test"]`, analysis-paths
`[]`, snapshot-paths `["snapshots"]`, asset-paths `[]`, target-path
`"target"`, log-path `"logs"`, on-run-start/on-run-end `[]`;
clean-targets defaults to the one-element list of the resolved
target-path; docs-paths defaults to the concatenation, in order, of the
resolved source, data, snapshot, analysis, and macro paths. -/
theorem from_contract_defaults (cfg : ProjectContract)
    (ver : List VersionSpecifier) (pk sel : Option YVal) (root : String)
    (hroot : cfg.project_root = some root) (hcv : cfg.config_version = 2)
    (p : Project) (hok : Project.from_contract cfg ver pk sel = .ok p) :
    (cfg.source_paths = none → p.source_paths = ["models"]) ∧
    (cfg.macro_paths = none → p.macro_paths = ["macros"]) ∧
    (cfg.data_paths = none → p.data_paths = ["data"]) ∧
    (cfg.test_paths = none → p.test_paths = ["test"]) ∧
    (cfg.analysis_paths = none → p.analysis_paths = []) ∧
    (cfg.snapshot_paths = none → p.snapshot_paths = ["snapshots"]) ∧
    (cfg.asset_paths = none → p.asset_paths = []) ∧
    (cfg.target_path = none → p.target_path = "target") ∧
    (cfg.log_path = none → p.log_path = "logs") ∧
    (cfg.on_run_start = none → p.on_run_start = []) ∧
    (cfg.on_run_end = none → p.on_run_end = []) ∧
    (cfg.clean_targets = none → p.clean_targets = [p.target_path]) ∧
    (cfg.docs_paths = none →
      p.docs_paths =
        p.source_paths ++ p.data_paths ++ p.snapshot_paths ++
          p.analysis_paths ++ p.macro_paths) := by
  unfold Project.from_contract at hok
  rw [hroot] at hok
  rw [hcv] at hok
  simp only [ne_eq, not_true_eq_false, if_false, reduceIte] at hok
  cases hpk : package_config_from_data pk with
  | error e => rw [hpk] at hok; cases hok
  | ok packages =>
    rw [hpk] at hok
    dsimp only at hok
    cases hsel : selector_config_from_data sel with
    | error e => rw [hsel] at hok; cases hok
    | ok selectors =>
      rw [hsel] at hok
      dsimp only at hok
      revert hok
      split
      · intro hok; cases hok
      · intro hok
        rw [Except.ok.injEq] at hok
        subst hok
        refine ⟨?_, ?_, ?_, ?_, ?_, ?_, ?_, ?_, ?_, ?_, ?_, ?_, ?_⟩ <;>
          intro hnone <;> simp [hnone, value_or, _all_source_paths]

/-- A validated config with every optional field absent. -/
def c3cfg : ProjectContract :=
  { name := "p"
    version := .str "1.0.0"
    project_root := some "/app"
    profile := none
    source_paths := none
    macro_paths := none
    data_paths := none
    test_paths := none
    analysis_paths := none
    docs_paths := none
    asset_paths := none
    target_path := none
    snapshot_paths := none
    clean_targets := none
    log_path := none
    modules_path := none
    quoting := none
    models := none
    on_run_start := none
    on_run_end := none
    seeds := none
    snapshots := none
    sources := none
    vars := none
    config_version := 2
    query_comment := .noValue }

/-- The project that assembling `c3cfg` produces. -/
def c3proj : Project :=
  { project_name := "p"
    version := .str "1.0.0"
    project_root := "/app"
    profile_name := none
    source_paths := ["models"]
    macro_paths := ["macros"]
    data_paths := ["data"]
    test_paths := ["test"]
    analysis_paths := []
    docs_paths := ["models", "data", "snapshots", "macros"]
    asset_paths := []
    target_path := "target"
    snapshot_paths := ["snapshots"]
    clean_targets := ["target"]
    log_path := "logs"
    modules_path := "dbt_modules"
    quoting := []
    models := none
    on_run_start := []
    on_run_end := []
    seeds := none
    snapshots := none
    sources := none
    vars := ⟨[]⟩
    dbt_version := []
    packages := ⟨[]⟩
    selectors := ⟨[]⟩
    query_comment := ⟨none⟩
    config_version := 2 }

/-- Witness for C3: assembling the all-absent config yields exactly the
literal defaults. -/
theorem from_contract_defaults_witness :
    Project.from_contract c3cfg [] none none = .ok c3proj ∧
    c3proj.source_paths = ["models"] ∧
    c3proj.macro_paths = ["macros"] ∧
    c3proj.data_paths = ["data"] ∧
    c3proj.test_paths = ["test"] ∧
    c3proj.analysis_paths = [] ∧
    c3proj.snapshot_paths = ["snapshots"] ∧
    c3proj.asset_paths = [] ∧
    c3proj.target_path = "target" ∧
    c3proj.log_path = "logs" ∧
    c3proj.on_run_start = [] ∧
    c3proj.on_run_end = [] ∧
    c3proj.clean_targets = [c3proj.target_path] ∧
    c3proj.docs_paths =
      c3proj.source_paths ++ c3proj.data_paths ++ c3proj.snapshot_paths ++
        c3proj.analysis_paths ++ c3proj.macro_paths := by
  have hok : Project.from_contract c3cfg [] none none = .ok c3proj := by rfl
  have h := from_contract_defaults c3cfg [] none none "/app" rfl rfl c3proj hok
  exact ⟨hok, h.1 rfl, h.2.1 rfl, h.2.2.1 rfl, h.2.2.2.1 rfl, h.2.2.2.2.1 rfl,
    h.2.2.2.2.2.1 rfl, h.2.2.2.2.2.2.1 rfl, h.2.2.2.2.2.2.2.1 rfl,
    h.2.2.2.2.2.2.2.2.1 rfl, h.2.2.2.2.2.2.2.2.2.1 rfl,
    h.2.2.2.2.2.2.2.2.2.2.1 rfl, h.2.2.2.2.2.2.2.2.2.2.2.1 rfl,
    h.2.2.2.2.2.2.2.2.2.2.2.2 rfl⟩

/-- A keypath with no registered handler passes values through unchanged. -/
theorem converter_unregistered (kp : List KeyElem) (v : YVal)
    (h : kp ∉ registeredKeypaths) : converter v kp = v := by
  unfold converter
  have hnone : preprocessHandlers.find? (fun hh => hh.1 = kp) = none := by
    rw [List.find?_eq_none]
    intro x hx
    simp only [decide_eq_true_eq]
    intro heq
    exact h (heq ▸ List.mem_map_of_mem Prod.fst hx)
  rw [hnone]

/-- C4: preprocessing applies to every registered keypath exactly the
stated transform and leaves every other node unchanged: at
`('on-run-start',)` and `('on-run-end',)` a null becomes `[]` and a string
`s` becomes `[s]` while a sequence passes through; at `('models',)`,
`('seeds',)`, `('snapshots',)` and their `vars` sub-paths a null becomes
an empty mapping; at their `pre-hook`/`post-hook` sub-paths the
null/string-to-list rule applies; at `('seeds', 'column_types')` a null
becomes an empty mapping; the registered keypaths are exactly those of the
blocks `models`, `seeds` and `snapshots` (plus the two run-hook paths and
the seed `column_types` path); and `_preprocess` is precisely `deep_map`
of this converter. -/
theorem preprocess_rule_table :
    (∀ v, converter v [.key "on-run-start"] = _list_if_none_or_string v) ∧
    (∀ v, converter v [.key "on-run-end"] = _list_if_none_or_string v) ∧
    (∀ r, r ∈ (["models", "seeds", "snapshots"] : List String) → ∀ v,
      converter v [.key r] = _dict_if_none v ∧
      converter v [.key r, .key "vars"] = _dict_if_none v ∧
      converter v [.key r, .key "pre-hook"] = _list_if_none_or_string v ∧
      converter v [.key r, .key "post-hook"] = _list_if_none_or_string v) ∧
    (∀ v, converter v [.key "seeds", .key "column_types"] = _dict_if_none v) ∧
    (∀ kp v, kp ∉ registeredKeypaths → converter v kp = v) ∧
    (_list_if_none_or_string .null = .arr [] ∧
      (∀ t, _list_if_none_or_string (.s t) = .arr [.s t]) ∧
      (∀ xs, _list_if_none_or_string (.arr xs) = .arr xs) ∧
      _dict_if_none .null = .obj [] ∧
      (∀ kvs, _dict_if_none (.obj kvs) = .obj kvs)) ∧
    registeredKeypaths =
      [[.key "on-run-start"], [.key "on-run-end"],
       [.key "models"], [.key "models", .key "vars"],
       [.key "models", .key "pre-hook"], [.key "models", .key "post-hook"],
       [.key "seeds"], [.key "seeds", .key "vars"],
       [.key "seeds", .key "pre-hook"], [.key "seeds", .key "post-hook"],
       [.key "snapshots"], [.key "snapshots", .key "vars"],
       [.key "snapshots", .key "pre-hook"],
       [.key "snapshots", .key "post-hook"],
       [.key "seeds", .key "column_types"]] ∧
    (∀ doc, Project._preprocess doc = deep_map converter doc) := by
  refine ⟨fun v => rfl, fun v => rfl, ?_,
    fun v => rfl,
    fun kp v h => converter_unregistered kp v h,
    ⟨rfl, fun t => rfl, fun xs => rfl, rfl, fun kvs => rfl⟩,
    by rfl,
    fun doc => rfl⟩
  intro r hr v
  simp only [List.mem_cons, List.not_mem_nil, or_false] at hr
  rcases hr with h | h | h <;>
    (subst h; exact ⟨rfl, rfl, rfl, rfl⟩)

/-- C5 counterexample: with vars `{a: 1, b: 2, pkg: {b: 9}}` — global vars
`a`/`b` and package bucket `{b: 9}` for package `pkg` — the overlay that a
node owned by `pkg` receives is not the mapping `{a: 1, b: 9}`: the global
bucket is the whole vars mapping, so the overlay also retains the `pkg`
entry itself. -/
theorem vars_for_retains_package_key :
    (VarProvider.mk [("a", .i 1), ("b", .i 2), ("pkg", .obj [("b", .i 9)])]
      |>.vars_for ⟨["m"], "model", "pkg"⟩ "postgres").lookup "pkg" =
      some (.obj [("b", .i 9)]) ∧
    ylookup [("a", .i 1), ("b", .i 9)] "pkg" = none ∧
    ¬ (∀ k, (VarProvider.mk [("a", .i 1), ("b", .i 2),
        ("pkg", .obj [("b", .i 9)])] |>.vars_for
          ⟨["m"], "model", "pkg"⟩ "postgres").lookup k =
        ylookup [("a", .i 1), ("b", .i 9)] k) := by
  refine ⟨rfl, rfl, fun h => ?_⟩
  have hp := h "pkg"
  rw [show (VarProvider.mk [("a", .i 1), ("b", .i 2),
      ("pkg", .obj [("b", .i 9)])] |>.vars_for
        ⟨["m"], "model", "pkg"⟩ "postgres").lookup "pkg" =
      some (.obj [("b", .i 9)]) from rfl] at hp
  rw [show ylookup [("a", .i 1), ("b", .i 9)] "pkg" = none from rfl] at hp
  exact Option.noConfusion hp

/-- C5 (as amended): `VarProvider.vars_for` returns an overlay in which,
for every key, the bucket stored under the requesting node's
`package_name` takes precedence over the whole vars mapping, and keys
present in only one of the two pass through unchanged; the vars mapping
itself is the fallback bucket, so entries keyed by package names (the
`pkg` sub-mapping among them) remain visible.  Neither source bucket is
mutated — the function is pure.  On the example vars, a node owned by
`pkg` resolves `a` to 1 and `b` to 9, and a node owned by any other
package resolves `a` to 1 and `b` to 2. -/
theorem vars_for_overlay :
    (∀ (vars : List (String × YVal)) (node : IsFQNResource)
      (adapter_type k : String),
      (VarProvider.mk vars |>.vars_for node adapter_type).lookup k =
        (match ylookup (match ylookup vars node.package_name with
                        | some (.obj kvs) => kvs
                        | _ => []) k with
         | some w => some w
         | none => ylookup vars k)) ∧
    (VarProvider.mk [("a", .i 1), ("b", .i 2), ("pkg", .obj [("b", .i 9)])]
      |>.vars_for ⟨["m"], "model", "pkg"⟩ "postgres").lookup "a" =
      some (.i 1) ∧
    (VarProvider.mk [("a", .i 1), ("b", .i 2), ("pkg", .obj [("b", .i 9)])]
      |>.vars_for ⟨["m"], "model", "pkg"⟩ "postgres").lookup "b" =
      some (.i 9) ∧
    (VarProvider.mk [("a", .i 1), ("b", .i 2), ("pkg", .obj [("b", .i 9)])]
      |>.vars_for ⟨["m"], "model", "other"⟩ "postgres").lookup "a" =
      some (.i 1) ∧
    (VarProvider.mk [("a", .i 1), ("b", .i 2), ("pkg", .obj [("b", .i 9)])]
      |>.vars_for ⟨["m"], "model", "other"⟩ "postgres").lookup "b" =
      some (.i 2) := by
  refine ⟨?_, rfl, rfl, rfl, rfl⟩
  intro vars node adapter_type k
  simp only [VarProvider.vars_for, MultiDict.add, MultiDict.lookup,
    List.foldl_cons, List.foldl_nil]
  cases h1 : ylookup (match ylookup vars node.package_name with
                      | some (.obj kvs) => kvs
                      | _ => []) k <;>
    cases h2 : ylookup vars k <;> simp [h1, h2]

/-- Every `Project` that the assembly stage hands back has already passed
the round-trip sanity check `project.validate()` run just before the
return (project.py lines 498-500). -/
theorem from_contract_validate_ok (cfg : ProjectContract)
    (ver : List VersionSpecifier) (pk sel : Option YVal) (p : Project)
    (hok : Project.from_contract cfg ver pk sel = .ok p) :
    Project.validate p = .ok () := by
  unfold Project.from_contract at hok
  split at hok
  · cases hok
  · dsimp only at hok
    split at hok
    · cases hok
    · split at hok
      · cases hok
      · split at hok
        · cases hok
        · split at hok
          · cases hok
          · rename_i u hval
            rw [Except.ok.injEq] at hok
            subst hok
            rw [hval]

/-- C6 counterexample: a failing self-check is not reported distinctly
from manifest-authoring schema-validation errors.  `Project.validate`
(project.py lines 561-562) wraps the validator failure exactly as the
schema-validation site of `from_project_config` (lines 389-390) does: the
same `DbtProjectError` carrying the same `validator_error_message` text,
with nothing marking it as an internal resolver defect. -/
theorem self_check_wrap_not_distinct :
    selfCheckWrap ⟨"round-trip self-check failed"⟩ =
      schemaValidationWrap ⟨"round-trip self-check failed"⟩ ∧
    selfCheckWrap ⟨"round-trip self-check failed"⟩ =
      .projectError "round-trip self-check failed" none := by
  exact ⟨rfl, rfl⟩

/-- C6 (as amended): every `Project` returned by `from_project_config` has
already passed the round-trip self-check — its serialized canonical form
re-validates against the schema contract; but when that self-check fails
the resulting error is wrapped identically to a manifest schema-validation
error (`DbtProjectError(validator_error_message(e))`), marked as internal
only by a source comment, not reported distinctly. -/
theorem from_project_config_self_check (doc : GDoc) (pk sel : Option YVal)
    (ver : List VersionSpecifier) (p : Project)
    (hok : Project.from_project_config doc pk sel ver = .ok p) :
    Project.validate p = .ok () ∧
    (∃ cfg2, ProjectContract.from_dict (p.to_project_config false) =
      .ok cfg2) ∧
    (∀ e : ValidationError, selfCheckWrap e = schemaValidationWrap e) := by
  have hval : Project.validate p = .ok () := by
    unfold Project.from_project_config at hok
    split at hok
    · cases hok
    · split at hok
      · cases hok
      · exact from_contract_validate_ok _ _ _ _ _ hok
  refine ⟨hval, ?_, fun e => rfl⟩
  unfold Project.validate at hval
  split at hval
  · cases hval
  · rename_i cfg2 h2
    exact ⟨cfg2, h2⟩

/-- The document the C6 witness resolves. -/
def c6doc : GDoc :=
  ⟨[.obj [("name", 1), ("version", 2), ("project-root", 3),
      ("config-version", 4)],
    .s "proj", .s "1.0.0", .s "/app", .i 2], 0⟩

/-- The project resolving `c6doc` produces. -/
def c6proj : Project :=
  { c3proj with project_name := "proj" }

/-- Witness for C6: a concrete successful resolution whose result passes
`validate`. -/
theorem from_project_config_self_check_witness :
    Project.from_project_config c6doc none none [] = .ok c6proj ∧
    Project.validate c6proj = .ok () := by
  have hok : Project.from_project_config c6doc none none [] = .ok c6proj := by
    rfl
  exact ⟨hok,
    (from_project_config_self_check c6doc none none [] c6proj hok).1⟩

/-- The value stored under a key of the serialized canonical form. -/
def canonLookup (p : Project) (with_packages : Bool) (k : String) :
    Option YVal :=
  match p.to_project_config with_packages with
  | .obj kvs => ylookup kvs k
  | _ => none

mutual

/-- Whether a value tree holds the given string anywhere — as a string
atom or as a mapping key. -/
def yvalContainsStr : YVal → String → Bool
  | .s t, needle => t = needle
  | .arr xs, needle => yseqContainsStr xs needle
  | .obj kvs, needle => ymapContainsStr kvs needle
  | _, _ => false

def yseqContainsStr : List YVal → String → Bool
  | [], _ => false
  | x :: rest, needle =>
      yvalContainsStr x needle || yseqContainsStr rest needle

def ymapContainsStr : List (String × YVal) → String → Bool
  | [], _ => false
  | (k, v) :: rest, needle =>
      k = needle || yvalContainsStr v needle || ymapContainsStr rest needle

end

/-- A resolved project whose modules directory is a sentinel string that
occurs nowhere else in it. -/
def c7proj : Project :=
  { c3proj with modules_path := "modules_sentinel_dir" }

/-- C7 counterexample: `to_project_config` does not reproduce every field —
the modules directory (`modules_path`) is omitted entirely: no
`modules-path` key exists in the serialized tree, and the sentinel value
of the field occurs nowhere in it. -/
theorem to_project_config_omits_modules_path :
    c7proj.modules_path = "modules_sentinel_dir" ∧
    yvalContainsStr (c7proj.to_project_config true)
      "modules_sentinel_dir" = false ∧
    canonLookup c7proj true "modules-path" = none := by
  refine ⟨rfl, ?_, ?_⟩ <;>
    simp [c7proj, c3proj, Project.to_project_config, canonLookup,
      yvalContainsStr, yseqContainsStr, ymapContainsStr, ylookup, yobjUpdate,
      PackageConfig.to_dict, VarProvider.to_dict, QueryComment.to_dict,
      PVersion.toY, optStrY, strListY, optObjY]

/-- C7 (as amended): for every resolved Project, `to_project_config`
reproduces each serialized field under its canonical hyphenated external
key name, and the query-comment setting unconditionally (the truthiness
guard always holds); but the modules directory (`modules_path`) and the
selectors collection are not serialized at all. -/
theorem to_project_config_canonical_keys (p : Project) (wp : Bool) :
    canonLookup p wp "name" = some (.s p.project_name) ∧
    canonLookup p wp "version" = some p.version.toY ∧
    canonLookup p wp "project-root" = some (.s p.project_root) ∧
    canonLookup p wp "profile" = some (optStrY p.profile_name) ∧
    canonLookup p wp "source-paths" = some (strListY p.source_paths) ∧
    canonLookup p wp "macro-paths" = some (strListY p.macro_paths) ∧
    canonLookup p wp "data-paths" = some (strListY p.data_paths) ∧
    canonLookup p wp "test-paths" = some (strListY p.test_paths) ∧
    canonLookup p wp "analysis-paths" = some (strListY p.analysis_paths) ∧
    canonLookup p wp "docs-paths" = some (strListY p.docs_paths) ∧
    canonLookup p wp "asset-paths" = some (strListY p.asset_paths) ∧
    canonLookup p wp "target-path" = some (.s p.target_path) ∧
    canonLookup p wp "snapshot-paths" = some (strListY p.snapshot_paths) ∧
    canonLookup p wp "clean-targets" = some (strListY p.clean_targets) ∧
    canonLookup p wp "log-path" = some (.s p.log_path) ∧
    canonLookup p wp "quoting" = some (.obj p.quoting) ∧
    canonLookup p wp "models" = some (optObjY p.models) ∧
    canonLookup p wp "on-run-start" = some (strListY p.on_run_start) ∧
    canonLookup p wp "on-run-end" = some (strListY p.on_run_end) ∧
    canonLookup p wp "seeds" = some (optObjY p.seeds) ∧
    canonLookup p wp "snapshots" = some (optObjY p.snapshots) ∧
    canonLookup p wp "sources" = some (optObjY p.sources) ∧
    canonLookup p wp "vars" = some (.obj p.vars.to_dict) ∧
    canonLookup p wp "require-dbt-version" =
      some (.arr (p.dbt_version.map fun v => .s v.to_version_string)) ∧
    canonLookup p wp "config-version" = some (.i p.config_version) ∧
    canonLookup p wp "query-comment" = some p.query_comment.to_dict ∧
    canonLookup p wp "packages" =
      (if wp then some (.arr p.packages.packages) else none) ∧
    canonLookup p wp "modules-path" = none ∧
    canonLookup p wp "selectors" = none := by
  cases wp <;>
    simp [canonLookup, Project.to_project_config, yobjUpdate, ylookup,
      PackageConfig.to_dict, VarProvider.to_dict]

/-- Whether an association list has pairwise distinct keys, as every dict a
Python program builds does. -/
def nodupKeys : List (String × YVal) → Bool
  | [] => true
  | (k, _) :: rest => !(rest.any fun kv => kv.1 == k) && nodupKeys rest

mutual

/-- A value tree every mapping of which has pairwise distinct keys: the
image of an actual Python value. -/
def yvalWF : YVal → Bool
  | .arr xs => yseqWF xs
  | .obj kvs => nodupKeys kvs && ymapWF kvs
  | _ => true

def yseqWF : List YVal → Bool
  | [] => true
  | x :: rest => yvalWF x && yseqWF rest

def ymapWF : List (String × YVal) → Bool
  | [] => true
  | kv :: rest => yvalWF kv.2 && ymapWF rest

end

theorem zip_self_mem {α : Type} {xs : List α} {a c : α}
    (h : (a, c) ∈ xs.zip xs) : a = c := by
  induction xs with
  | nil => cases h
  | cons x rest ih =>
    rw [List.zip_cons_cons] at h
    rcases List.mem_cons.mp h with h1 | h1
    · cases h1; rfl
    · exact ih h1

theorem nodup_ylookup {d : List (String × YVal)} {k : String} {v : YVal}
    (hn : nodupKeys d = true) (hm : (k, v) ∈ d) : ylookup d k = some v := by
  induction d with
  | nil => cases hm
  | cons kv rest ih =>
    obtain ⟨k0, v0⟩ := kv
    rw [nodupKeys] at hn
    simp only [Bool.and_eq_true, Bool.not_eq_true'] at hn
    rcases List.mem_cons.mp hm with h1 | h1
    · rw [Prod.mk.injEq] at h1
      obtain ⟨hk, hv⟩ := h1
      subst hk
      subst hv
      rw [ylookup, if_pos rfl]
    · rw [ylookup]
      by_cases hk : k0 = k
      · exfalso
        subst hk
        have hany : rest.any (fun kv => kv.1 == k0) = true :=
          List.any_eq_true.mpr ⟨(k0, v), h1, by simp⟩
        simp [hany] at hn
      · rw [if_neg hk]
        exact ih hn.2 h1

theorem yseqWF_mem {xs : List YVal} {x : YVal} (h : yseqWF xs = true)
    (hm : x ∈ xs) : yvalWF x = true := by
  induction xs with
  | nil => cases hm
  | cons y rest ih =>
    rw [yseqWF, Bool.and_eq_true] at h
    rcases List.mem_cons.mp hm with h1 | h1
    · exact h1 ▸ h.1
    · exact ih h.2 h1

theorem ymapWF_mem {d : List (String × YVal)} {kv : String × YVal}
    (h : ymapWF d = true) (hm : kv ∈ d) : yvalWF kv.2 = true := by
  induction d with
  | nil => cases hm
  | cons kv0 rest ih =>
    rw [ymapWF, Bool.and_eq_true] at h
    rcases List.mem_cons.mp hm with h1 | h1
    · exact h1 ▸ h.1
    · exact ih h.2 h1

theorem pyEq_refl_bounded :
    ∀ (n : Nat) (v : YVal), sizeOf v ≤ n → yvalWF v = true →
      pyEq v v = true := by
  intro n
  induction n with
  | zero =>
    intro v hv _
    cases v <;> simp at hv
  | succ n ih =>
    intro v hv hwf
    match v with
    | .null => rw [pyEq]
    | .b x => cases x <;> simp [pyEq, YVal.toNum]
    | .i m => simp [pyEq, YVal.toNum]
    | .f q => simp [pyEq, YVal.toNum]
    | .s t => simp [pyEq]
    | .arr xs =>
      rw [pyEq]
      simp only [decide_eq_true_eq, Bool.and_eq_true, List.all_eq_true]
      refine ⟨trivial, ?_⟩
      intro p hp
      obtain ⟨⟨a, c⟩, hmem⟩ := p
      have hac : a = c := zip_self_mem hmem
      subst hac
      have hin : a ∈ xs := (List.of_mem_zip hmem).1
      have hsz : sizeOf a ≤ n := by
        have h1 := List.sizeOf_lt_of_mem hin
        have h2 : sizeOf (YVal.arr xs) ≤ n + 1 := hv
        simp only [YVal.arr.sizeOf_spec] at h2
        omega
      have hwfa : yvalWF a = true := by
        rw [yvalWF] at hwf
        exact yseqWF_mem hwf hin
      exact ih a hsz hwfa
    | .obj d =>
      rw [pyEq]
      simp only [decide_eq_true_eq, Bool.and_eq_true, List.all_eq_true]
      refine ⟨trivial, ?_⟩
      intro kv hkv
      obtain ⟨⟨k1, v1⟩, hmem⟩ := kv
      rw [yvalWF, Bool.and_eq_true] at hwf
      have hlook : ylookup d k1 = some v1 := nodup_ylookup hwf.1 hmem
      have hsz : sizeOf v1 ≤ n := by
        have h1 := List.sizeOf_lt_of_mem hmem
        have h2 : sizeOf (YVal.obj d) ≤ n + 1 := hv
        simp only [YVal.obj.sizeOf_spec, Prod.mk.sizeOf_spec] at h2 h1
        omega
      have hwfv : yvalWF v1 = true := ymapWF_mem hwf.2 hmem
      split
      · rename_i w heq
        rw [hlook] at heq
        cases heq
        exact ih v1 hsz hwfv
      · rename_i heq
        rw [hlook] at heq
        cases heq

/-- Reflexivity of Python `==` on actual Python values. -/
theorem pyEq_refl (v : YVal) (hwf : yvalWF v = true) : pyEq v v = true :=
  pyEq_refl_bounded (sizeOf v) v le_rfl hwf

/-- C8: equality of Projects is exactly equality of canonical forms: two
Projects compare equal iff their `to_project_config(with_packages=True)`
trees compare equal under Python `==` (both operands being Projects is
enforced by the type, mirroring the `isinstance` guards); in particular
two configurations differing only in internal state that the canonical
form does not carry, but with identical canonical forms, are equal. -/
theorem project_eq_iff_canonical :
    (∀ p q : Project, Project.projectEq p q = true ↔
      pyEq (p.to_project_config true) (q.to_project_config true) = true) ∧
    (∀ p q : Project, yvalWF (p.to_project_config true) = true →
      p.to_project_config true = q.to_project_config true →
      Project.projectEq p q = true) := by
  refine ⟨fun p q => Iff.rfl, fun p q hwf heq => ?_⟩
  unfold Project.projectEq
  rw [← heq]
  exact pyEq_refl _ hwf

/-- A project differing from `c3proj` only in internal state the canonical
form does not carry (the modules directory and the selector collection). -/
def c8proj : Project :=
  { c3proj with
    modules_path := "other_modules"
    selectors := ⟨[("fast", .null)]⟩ }

/-- Witness for C8: two Projects with different internal representation
but identical canonical forms are equal. -/
theorem project_eq_iff_canonical_witness :
    yvalWF (c3proj.to_project_config true) = true ∧
    c3proj.to_project_config true = c8proj.to_project_config true ∧
    Project.projectEq c3proj c8proj = true ∧
    c3proj.modules_path ≠ c8proj.modules_path := by
  have hwf : yvalWF (c3proj.to_project_config true) = true := by
    simp [c3proj, Project.to_project_config, yobjUpdate, ylookup, yvalWF,
      yseqWF, ymapWF, nodupKeys, PackageConfig.to_dict, VarProvider.to_dict,
      QueryComment.to_dict, PVersion.toY, optStrY, strListY, optObjY]
  have heq : c3proj.to_project_config true = c8proj.to_project_config true :=
    rfl
  refine ⟨hwf, heq, project_eq_iff_canonical.2 c3proj c8proj hwf heq, ?_⟩
  intro h
  rw [show c3proj.modules_path = "dbt_modules" from rfl,
    show c8proj.modules_path = "other_modules" from rfl] at h
  simp at h

/-- C9: when preprocessing of the rendered project tree detects a
self-referential structure, `from_project_config` raises the dedicated
cyclic-manifest project error ("Cycle detected"), rather than propagating
the raw `RecursionException`; the error is distinct from the generic
parse-error messages and from the bare schema `ValidationError` kind. -/
theorem from_project_config_cycle_error (doc : GDoc) (pk sel : Option YVal)
    (ver : List VersionSpecifier)
    (hcyc : Project._preprocess doc = .error .mk) :
    Project.from_project_config doc pk sel ver =
      .error (.projectError
        "Cycle detected: Project input has a reference to itself" none) ∧
    "Cycle detected: Project input has a reference to itself" ≠
      "dbt_project.yml does not parse to a dictionary" ∧
    (∀ m, DbtError.projectError
        "Cycle detected: Project input has a reference to itself" none ≠
      DbtError.validationError m) := by
  refine ⟨?_, by simp, fun m h => by cases h⟩
  unfold Project.from_project_config
  rw [hcyc]

/-- A self-referential document: its root mapping holds itself under the
`models` key. -/
def c9doc : GDoc := ⟨[.obj [("models", 0)]], 0⟩

/-- Witness for C9: preprocessing detects the cycle in `c9doc` and
`from_project_config` surfaces the dedicated error. -/
theorem from_project_config_cycle_error_witness :
    Project._preprocess c9doc = .error .mk ∧
    Project.from_project_config c9doc none none [] =
      .error (.projectError
        "Cycle detected: Project input has a reference to itself" none) := by
  have hcyc : Project._preprocess c9doc = .error .mk := rfl
  exact ⟨hcyc, (from_project_config_cycle_error c9doc none none [] hcyc).1⟩

/-- C10: called directly with a validated config whose config_version is
not 2 (bypassing the partial-load gate), the assembly stage of
`from_project_config` raises a bare schema `ValidationError` naming the
version — a different error kind from the wrapped `DbtProjectError` used
for every other failure in that routine. -/
theorem from_contract_version_error_bare (cfg : ProjectContract)
    (ver : List VersionSpecifier) (pk sel : Option YVal) (root : String)
    (hroot : cfg.project_root = some root) (hcv : cfg.config_version ≠ 2) :
    Project.from_contract cfg ver pk sel =
      .error (.validationError
        ("Got unsupported config_version=" ++ toString cfg.config_version)) ∧
    (∀ m p', DbtError.validationError
        ("Got unsupported config_version=" ++ toString cfg.config_version) ≠
      DbtError.projectError m p') := by
  refine ⟨?_, fun m p' h => by cases h⟩
  unfold Project.from_contract
  rw [hroot]
  dsimp only
  rw [if_pos hcv]

/-- Witness for C10: `config_version = 1` escapes as the bare
`ValidationError`. -/
theorem from_contract_version_error_bare_witness :
    ({ c3cfg with config_version := 1 } : ProjectContract).config_version
        ≠ 2 ∧
    Project.from_contract { c3cfg with config_version := 1 } [] none none =
      .error (.validationError "Got unsupported config_version=1") := by
  have h := from_contract_version_error_bare
    { c3cfg with config_version := 1 } [] none none "/app" rfl (by decide)
  refine ⟨by decide, ?_⟩
  simpa using h.1
